import Mathlib

/-!
Verification development for the USDT P2P monitor's ingestion-and-rolling-history
subsystem.  The definitions below are a shallow embedding of the Python source:

* `binance_api.py` : `fetch_binance_p2p_data`, `filter_offers`,
  `calculate_average_price`, `fetch_multi_asset_data`;
* `data_processor.py` : `save_price_data`, `get_price_history`, and the
  summary-sheet pipeline of `save_price_data_as_excel` (row construction,
  duplicate suppression, sort by timestamp, time-period window filter).

Python exceptions are embedded as `Except Unit` / explicit outcome types,
machine floats as `ℚ`, and the history file as an explicit `FileState`.
-/

/-! ### Offers and Python `float()` coercion (binance_api.py) -/

/-- A JSON field value as seen by Python's `float(d.get(key, 0))` idiom:
the key may be absent (`missing`, so the default `0` is used), hold a value
that `float()` converts (`num q`), or hold a value on which `float()`
raises `ValueError` (`bad`, e.g. a non-numeric string). -/
inductive NumField where
  | missing
  | num (q : ℚ)
  | bad
deriving DecidableEq

/-- One marketplace advertisement, restricted to the fields the source reads:
`offer.get("advertiser", {}).get("userType")`,
`offer.get("adv", {}).get("tradableQuantity", 0)` and
`adv_details.get("price", 0)`.  A missing `advertiser` dict is the same as a
missing `userType` key (both yield `None`), hence a single `Option String`. -/
structure Offer where
  userType : Option String
  tradableQuantity : NumField
  price : NumField
deriving DecidableEq

/-- Python `float(value)` applied to the field (with the `.get` default `0`):
`float(0) = 0.0` for a missing key, the numeric value when it converts, and a
raised `ValueError` otherwise. -/
def floatOf : NumField → Except Unit ℚ
  | .missing => .ok 0
  | .num q => .ok q
  | .bad => .error ()

/-- `advertiser.get("userType") == "merchant"` (binance_api.py line 69). -/
def isMerchant (o : Offer) : Bool := o.userType = some "merchant"

/-- `filter_offers` (binance_api.py lines 53-75): for each offer compute
`float(adv_details.get("tradableQuantity", 0))` — this runs before the
eligibility test, so a `ValueError` propagates out of the whole call — and
keep the offer when `is_merchant or tradable_quantity > 1000`. -/
def filter_offers : List Offer → Except Unit (List Offer)
  | [] => .ok []
  | o :: rest => do
    let q ← floatOf o.tradableQuantity
    let tail ← filter_offers rest
    if isMerchant o ∨ q > 1000 then .ok (o :: tail) else .ok tail

/-- The running total of `calculate_average_price` (binance_api.py lines
90-94): `total_price += float(adv_details.get("price", 0))` over the list,
propagating a `ValueError` from `float`. -/
def sumPrices : List Offer → Except Unit ℚ
  | [] => .ok 0
  | o :: rest => do
    let p ← floatOf o.price
    let t ← sumPrices rest
    .ok (p + t)

/-- `calculate_average_price` (binance_api.py lines 77-96): `0` for an empty
list, otherwise `total_price / len(offers)`. -/
def calculate_average_price (offers : List Offer) : Except Unit ℚ :=
  if offers.isEmpty then .ok 0
  else do
    let total ← sumPrices offers
    .ok (total / (offers.length : ℚ))

/-- The quantity value the eligibility predicate effectively compares when
`float` does not raise: `0` for a missing key, the parsed value otherwise.
(`bad` never reaches the comparison; the `0` there is an arbitrary filler.) -/
def qtyVal (o : Offer) : ℚ :=
  match o.tradableQuantity with
  | .missing => 0
  | .num q => q
  | .bad => 0

/-- The eligibility predicate of `filter_offers` on offers whose quantity
field does not make `float` raise. -/
def eligible (o : Offer) : Bool := isMerchant o || decide (qtyVal o > 1000)

/-- The per-offer price value summed by `calculate_average_price` when
`float` does not raise (`bad` filler is arbitrary, as in `qtyVal`). -/
def priceVal (o : Offer) : ℚ :=
  match o.price with
  | .missing => 0
  | .num q => q
  | .bad => 0

/-! ### The marketplace fetch (binance_api.py lines 39-51) -/

/-- Outcome of `requests.post` + body parsing, as far as the source inspects
it: the request can fail on the wire (`requests.RequestException` raised by
`post`), or return a response with an HTTP status code and a parsed JSON
body in which the `"data"` key is either present (with a list) or absent. -/
inductive P2PResponse where
  | networkFailure
  | httpResponse (status : Nat) (data : Option (List Offer))
deriving DecidableEq

/-- What `fetch_binance_p2p_data` does for its caller: re-raise the
exception, or return a list. -/
inductive FetchResult where
  | raised
  | returned (offers : List Offer)
deriving DecidableEq

/-- `fetch_binance_p2p_data` (binance_api.py lines 39-51): a network failure
raises; `response.raise_for_status()` raises on 4XX/5XX status codes
(`400 ≤ status`); then `if "data" in result: return result["data"]` and in
the `else` branch the unexpected format is logged and `[]` is returned. -/
def fetch_binance_p2p_data (resp : P2PResponse) : FetchResult :=
  match resp with
  | .networkFailure => .raised
  | .httpResponse status data =>
    if 400 ≤ status then .raised
    else
      match data with
      | some offers => .returned offers
      | none => .returned []

/-! ### Snapshots and the multi-asset batch (binance_api.py lines 98-179) -/

/-- The dict returned by `fetch_latest_binance_data` (binance_api.py lines
125-136), i.e. one point-in-time measurement for an (asset, fiat) pair. -/
structure AssetSnapshot where
  timestamp : String
  asset : String
  fiat : String
  buy_price : ℚ
  sell_price : ℚ
  spread : ℚ
  buy_offers_count : Nat
  sell_offers_count : Nat
  buy_offers : List Offer
  sell_offers : List Offer
deriving DecidableEq

/-- The zero-valued placeholder built in the `except` branch of
`fetch_multi_asset_data` (binance_api.py lines 161-172). -/
def zeroSnapshot (ts asset fiat : String) : AssetSnapshot :=
  ⟨ts, asset, fiat, 0, 0, 0, 0, 0, [], []⟩

/-- `fetch_multi_asset_data` (binance_api.py lines 138-179): one shared
timestamp `ts` is taken at the start; each asset is composed independently
through `fetch_latest_binance_data` — embedded as the fallible oracle
`fetchLatest`, since its failures come from the network — and an exception
for one asset is caught and replaced by the zero placeholder.  The
`assets_data` dict (distinct keys, insertion order) is embedded as an
association list. -/
def fetch_multi_asset_data (assets : List String) (fiat ts : String)
    (fetchLatest : String → Except Unit AssetSnapshot) :
    List (String × AssetSnapshot) :=
  assets.map fun a =>
    match fetchLatest a with
    | .ok d => (a, d)
    | .error _ => (a, zeroSnapshot ts a fiat)

/-! ### The rolling history store (data_processor.py lines 19-72) -/

/-- The persisted form of a snapshot (data_processor.py lines 34-39). -/
structure HistoryPoint where
  timestamp : String
  buy_price : ℚ
  sell_price : ℚ
  spread : ℚ
deriving DecidableEq

/-- `{"timestamp": ..., "buy_price": ..., "sell_price": ..., "spread": ...}`
built from the snapshot dict (data_processor.py lines 34-39). -/
def mkHistoryPoint (d : AssetSnapshot) : HistoryPoint :=
  ⟨d.timestamp, d.buy_price, d.sell_price, d.spread⟩

/-- `if len(history) > 168: history = history[-168:]`
(data_processor.py lines 44-45); Python's `l[-168:]` is the last 168
elements, i.e. `drop (length - 168)`. -/
def truncateHistory (history : List HistoryPoint) : List HistoryPoint :=
  if history.length > 168 then history.drop (history.length - 168) else history

/-- The pure core of `save_price_data`: append the new point, then cap at
168 (data_processor.py lines 41-45). -/
def save_price_data_core (history : List HistoryPoint) (p : HistoryPoint) :
    List HistoryPoint :=
  truncateHistory (history ++ [p])

/-- The state of `static/data/price_history.json`: absent, holding a JSON
array of points, or unreadable/undecodable (`corrupt`). -/
inductive FileState where
  | absent
  | stored (points : List HistoryPoint)
  | corrupt
deriving DecidableEq

/-- `get_price_history` (data_processor.py lines 57-72): return the parsed
file if it exists, `[]` if it does not, and — via the `except` branch — `[]`
when opening or `json.load` raises. -/
def get_price_history : FileState → List HistoryPoint
  | .absent => []
  | .stored pts => pts
  | .corrupt => []

/-- How the `try` body of `save_price_data` can end.  `failBeforeWrite`: an
exception before `open(HISTORY_FILE, 'w')` runs (e.g. a missing key in
`data`).  `failDuringWrite`: `open` succeeded — truncating the file in
place, since mode `'w'` truncates on open and there is no write-then-rename
— and then `json.dump` raised partway (serialization or storage fault),
leaving a partial file that no longer decodes.  `ok`: the dump completed. -/
inductive WriteOutcome where
  | ok
  | failBeforeWrite
  | failDuringWrite
deriving DecidableEq

/-- `save_price_data` (data_processor.py lines 19-55): read the current
history, append the new point, cap at 168, write the file in place; any
exception is caught and `False` is returned, success returns `True`. -/
def save_price_data (st : FileState) (data : AssetSnapshot)
    (w : WriteOutcome) : Bool × FileState :=
  let history := save_price_data_core (get_price_history st) (mkHistoryPoint data)
  match w with
  | .ok => (true, .stored history)
  | .failBeforeWrite => (false, st)
  | .failDuringWrite => (false, .corrupt)

/-! ### The summary-sheet pipeline of `save_price_data_as_excel`
(data_processor.py lines 152-210).  Only the historical sheet is modelled;
the other three sheets are row-by-row `str()` projections of the current
snapshot with no logic the claims touch. -/

/-- Rendering of a numeric value by `str(...)` into an export cell.  The
exact digit string Python produces for a float is irrelevant to every
claim (only the `Timestamp` column is ever compared), so the rendering is
a fixed injection of `ℚ` into `String`. -/
def ratStr (q : ℚ) : String :=
  toString q.num ++ (if q.den = 1 then "" else "/" ++ toString q.den)

/-- One row of `summary_data` (data_processor.py lines 160-165): the dict
keys "Timestamp", "Buy Price (SDG)", "Sell Price (SDG)", "Spread (SDG)",
all stringified. -/
structure SummaryRow where
  Timestamp : String
  buyPrice : String
  sellPrice : String
  spread : String
deriving DecidableEq

/-- The row built from one history point (data_processor.py lines 160-165);
`point.get("timestamp", "N/A")` is the stored timestamp string itself. -/
def rowOfPoint (p : HistoryPoint) : SummaryRow :=
  ⟨p.timestamp, ratStr p.buy_price, ratStr p.sell_price, ratStr p.spread⟩

/-- The row built from the current snapshot dict
(data_processor.py lines 172-177). -/
def rowOfCurrent (d : AssetSnapshot) : SummaryRow :=
  ⟨d.timestamp, ratStr d.buy_price, ratStr d.sell_price, ratStr d.spread⟩

/-- Lines 170-177: `if not any(item.get("Timestamp") == str(data.get("timestamp"))
for item in summary_data): summary_data.append({...})` — exact string
equality on the timestamp column. -/
def appendCurrentIfNew (rows : List SummaryRow) (d : AssetSnapshot) :
    List SummaryRow :=
  if rows.any fun r => r.Timestamp = d.timestamp then rows
  else rows ++ [rowOfCurrent d]

/-- Lexicographic code-point comparison of strings as character lists, the
order Python uses to compare `str` keys in `list.sort`. -/
def lexLe : List Char → List Char → Bool
  | [], _ => true
  | _ :: _, [] => false
  | a :: as, b :: bs =>
    if a.toNat < b.toNat then true
    else if b.toNat < a.toNat then false
    else lexLe as bs

/-- `summary_data.sort(key=lambda x: x["Timestamp"])` (line 180).  Python's
sort is a stable sort by the key; a stable sort's output is uniquely
determined by the (total, transitive) key order, so the stable
`List.insertionSort` is observationally the same list. -/
def sortRows (rows : List SummaryRow) : List SummaryRow :=
  rows.insertionSort fun a b => lexLe a.Timestamp.toList b.Timestamp.toList = true

/-- Value of a fixed-width run of decimal digits, `none` if any character is
not a digit. -/
def digitsVal (cs : List Char) : Option Nat :=
  if cs.all Char.isDigit then
    some (cs.foldl (fun n c => 10 * n + (c.toNat - 48)) 0)
  else none

/-- Gregorian leap-year rule, as `datetime` validates day-of-month. -/
def isLeapYear (y : Nat) : Bool :=
  (y % 4 == 0 && y % 100 != 0) || y % 400 == 0

/-- Number of days in month `m` of year `y`. -/
def daysInMonth (y m : Nat) : Nat :=
  if m = 2 then (if isLeapYear y then 29 else 28)
  else if m = 4 ∨ m = 6 ∨ m = 9 ∨ m = 11 then 30
  else 31

/-- Days since the civil epoch 1970-01-01 (standard days-from-civil
formula), so that timestamp comparison agrees with `datetime` order. -/
def daysFromCivil (y m d : Nat) : Int :=
  let yAdj : Int := if m ≤ 2 then (y : Int) - 1 else (y : Int)
  let era : Int := (if 0 ≤ yAdj then yAdj else yAdj - 399) / 400
  let yoe : Int := yAdj - era * 400
  let mp : Nat := (m + 9) % 12
  let doy : Nat := (153 * mp + 2) / 5 + (d - 1)
  let doe : Int := yoe * 365 + yoe / 4 - yoe / 100 + (doy : Int)
  era * 146097 + doe - 719468

/-- Absolute second count of a civil date-time, the embedding of a
`datetime` value; `datetime` comparison is comparison of these counts. -/
def tsSeconds (y mo d h mi s : Nat) : Int :=
  daysFromCivil y mo d * 86400 + ((h * 3600 + mi * 60 + s : Nat) : Int)

/-- `datetime.strptime(item["Timestamp"], "%Y-%m-%d %H:%M:%S")`
(data_processor.py line 193): parse the canonical
`YYYY-MM-DD HH:MM:SS` shape the ingester writes (4-2-2 2:2:2 digit
fields), validating month, day-of-month (with leap years), hour, minute
and second; anything else raises `ValueError`, embedded as `none`.
(Python also tolerates 1-digit month/day/hour/minute/second; the store
only ever writes the canonical 2-digit form, and every claim depends only
on parse success versus failure.) -/
def strptime (s : String) : Option Int :=
  match s.toList with
  | [y1, y2, y3, y4, '-', m1, m2, '-', d1, d2, ' ',
     h1, h2, ':', n1, n2, ':', s1, s2] =>
    match digitsVal [y1, y2, y3, y4], digitsVal [m1, m2], digitsVal [d1, d2],
        digitsVal [h1, h2], digitsVal [n1, n2], digitsVal [s1, s2] with
    | some y, some mo, some da, some ho, some mi, some se =>
      if 1 ≤ mo ∧ mo ≤ 12 ∧ 1 ≤ da ∧ da ≤ daysInMonth y mo
          ∧ ho ≤ 23 ∧ mi ≤ 59 ∧ se ≤ 59 then
        some (tsSeconds y mo da ho mi se)
      else none
    | _, _, _, _, _, _ => none
  | _ => none

/-- The body of the window-filter loop (data_processor.py lines 190-205):
parse the row's timestamp; on success keep the row exactly when one of the
three recognized periods matches and the time is within its window; the
`except` branch keeps rows whose timestamp fails to parse. -/
def keepRow (tp : String) (now : Int) (r : SummaryRow) : Bool :=
  match strptime r.Timestamp with
  | some t =>
    (tp == "hour" && decide (now - 3600 ≤ t)) ||
    (tp == "day" && decide (now - 86400 ≤ t)) ||
    (tp == "month" && decide (now - 30 * 86400 ≤ t))
  | none => true

/-- Lines 183-208: `if time_period:` — `None` and the empty string are
falsy in Python, skipping the filter entirely; otherwise rebuild the list
keeping the rows `keepRow` accepts. -/
def filterByPeriod (time_period : Option String) (now : Int)
    (rows : List SummaryRow) : List SummaryRow :=
  match time_period with
  | none => rows
  | some tp => if tp = "" then rows else rows.filter (keepRow tp now)

/-- The historical sheet of `save_price_data_as_excel`
(data_processor.py lines 152-210): rows from the stored history, the
current snapshot's row appended unless its timestamp is already present,
sorted by timestamp, then window-filtered (`now` is the
`datetime.now()` taken inside the filter block). -/
def build_summary (history : List HistoryPoint) (data : AssetSnapshot)
    (time_period : Option String) (now : Int) : List SummaryRow :=
  filterByPeriod time_period now
    (sortRows (appendCurrentIfNew (history.map rowOfPoint) data))

/-- Number of rows of the sheet carrying a given timestamp string. -/
def countTs (rows : List SummaryRow) (ts : String) : Nat :=
  rows.countP fun r => r.Timestamp = ts

/-! ### Concrete sample inputs used in the theorems below -/

/-- Boolean form of the window predicate the `time_period == 'hour'` branch
implements: keep a row iff its timestamp parses to a time within the last
hour, or fails to parse. -/
def lastHourPred (now : Int) (r : SummaryRow) : Bool :=
  match strptime r.Timestamp with
  | some t => decide (now - 3600 ≤ t)
  | none => true

/-- Keep exactly the rows whose timestamp fails to parse. -/
def unparseablePred (r : SummaryRow) : Bool := (strptime r.Timestamp).isNone

/-- The i-th of a run of sequential snapshots fed to the store. -/
def snapOf (i : Nat) : AssetSnapshot :=
  ⟨toString i, "USDT", "SDG", 0, 0, 0, 0, 0, [], []⟩

/-- A merchant offer whose `tradableQuantity` value makes `float` raise. -/
def badQtyMerchant : Offer := ⟨some "merchant", .bad, .missing⟩

/-- A non-merchant offer whose `tradableQuantity` value makes `float` raise. -/
def badQtyPlain : Offer := ⟨none, .bad, .missing⟩

/-- `{price: 600, qty: 2000, merchant: false}` from the spec's scenario. -/
def ofr600 : Offer := ⟨none, .num 2000, .num 600⟩

/-- `{price: 610, qty: 50, merchant: true}` from the spec's scenario. -/
def ofr610 : Offer := ⟨some "merchant", .num 50, .num 610⟩

/-- A stored history point predating the samples below. -/
def hp0 : HistoryPoint := ⟨"2024-01-01 00:00:00", 1, 2, 1⟩

/-- A history point timestamped 2 hours before `nowNoon`. -/
def hp1000 : HistoryPoint := ⟨"2024-06-15 10:00:00", 0, 0, 0⟩

/-- A history point timestamped 30 minutes before `nowNoon`. -/
def hp1130 : HistoryPoint := ⟨"2024-06-15 11:30:00", 0, 0, 0⟩

/-- A history point sharing the current snapshot's timestamp. -/
def hpNoon : HistoryPoint := ⟨"2024-06-15 12:00:00", 0, 0, 0⟩

/-- A current snapshot taken at noon. -/
def snapNoon : AssetSnapshot :=
  ⟨"2024-06-15 12:00:00", "USDT", "SDG", 0, 0, 0, 0, 0, [], []⟩

/-- The fixed "now" of the windowed-export examples. -/
def nowNoon : Int := (strptime "2024-06-15 12:00:00").getD 0

/-- Per-asset fetch oracle for the batch example: fetching BTC fails. -/
def fetchSample : String → Except Unit AssetSnapshot :=
  fun a => if a = "BTC" then .error () else .ok snapNoon

/-- A summary row whose timestamp does not parse. -/
def rowBadTs : SummaryRow := ⟨"garbage", "0", "0", "0"⟩

/-! ### Theorems -/

/-- Appending then capping is dropping from the front of the appended list
(with `Nat` subtraction covering the no-eviction case). -/
theorem save_core_eq_drop (h : List HistoryPoint) (p : HistoryPoint) :
    save_price_data_core h p = (h ++ [p]).drop (h.length + 1 - 168) := by
  unfold save_price_data_core truncateHistory
  have hlen : (h ++ [p]).length = h.length + 1 := by simp
  by_cases hl : (h ++ [p]).length > 168
  · rw [if_pos hl, hlen]
  · rw [if_neg hl]
    have h0 : h.length + 1 - 168 = 0 := by
      rw [hlen] at hl
      omega
    rw [h0, List.drop_zero]

/-- The capped history never exceeds 168 points. -/
theorem save_core_length_le (h : List HistoryPoint) (p : HistoryPoint) :
    (save_price_data_core h p).length ≤ 168 := by
  rw [save_core_eq_drop]
  simp
  omega

set_option maxRecDepth 100000 in
/-- Claim C1: for every previously persisted history and every new point,
`save_price_data` appends the point at the end and evicts from the front so
the persisted sequence never exceeds 168 elements; appending 200 sequential
points to an initially empty store leaves exactly the last 168, oldest
first. -/
theorem C1_rolling_history_cap :
    (∀ (st : FileState) (d : AssetSnapshot),
      get_price_history (save_price_data st d .ok).2
          = (get_price_history st ++ [mkHistoryPoint d]).drop
              ((get_price_history st).length + 1 - 168) ∧
      (get_price_history (save_price_data st d .ok).2).length ≤ 168) ∧
    get_price_history
        ((List.range 200).foldl
          (fun st i => (save_price_data st (snapOf i) .ok).2) .absent)
      = ((List.range 200).drop 32).map
          (fun i => HistoryPoint.mk (toString i) 0 0 0) := by
  refine ⟨fun st d => ⟨?_, ?_⟩, by decide⟩
  · exact save_core_eq_drop _ _
  · exact save_core_length_le _ _

/-- Claim C9: `get_price_history` returns the persisted sequence verbatim
when the file exists and decodes, an empty sequence when no file exists,
and degrades to an empty sequence (rather than propagating the error) when
the stored file is corrupt or unreadable. -/
theorem C9_read_degrades (pts : List HistoryPoint) :
    get_price_history (.stored pts) = pts ∧
    get_price_history .absent = [] ∧
    get_price_history .corrupt = [] :=
  ⟨rfl, rfl, rfl⟩

/-- Claim C2 counterexample: the claim says an offer whose quantity fails to
parse is treated as quantity 0 and kept when the advertiser is a merchant;
in the code `float` raises before the eligibility test, so `filter_offers`
fails on `[badQtyMerchant]` instead of returning it. -/
theorem C2_counterexample :
    filter_offers [badQtyMerchant] = .error () ∧
    filter_offers [badQtyMerchant] ≠ .ok [badQtyMerchant] := by
  refine ⟨rfl, fun h => ?_⟩
  rw [show filter_offers [badQtyMerchant] = .error () from rfl] at h
  exact Except.noConfusion h

/-- Claim C2 (amended): when no offer's quantity value makes `float` raise,
`filter_offers` returns exactly the sublist whose advertiser is a merchant
or whose quantity exceeds 1000, a missing quantity counting as 0; but an
offer whose present quantity fails to parse makes the whole filter fail
(even when that offer's advertiser is a merchant). -/
theorem C2_filter_eligibility (offers : List Offer) :
    ((∀ o ∈ offers, o.tradableQuantity ≠ .bad) →
      filter_offers offers = .ok (offers.filter eligible)) ∧
    ((∃ o ∈ offers, o.tradableQuantity = .bad) →
      filter_offers offers = .error ()) := by
  induction offers with
  | nil =>
    exact ⟨fun _ => rfl, fun ⟨o, ho, _⟩ => absurd ho (List.not_mem_nil o)⟩
  | cons o rest ih =>
    constructor
    · intro h
      have ho := h o (List.mem_cons_self o rest)
      have hrest := ih.1 fun x hx => h x (List.mem_cons_of_mem _ hx)
      have hq : floatOf o.tradableQuantity = .ok (qtyVal o) := by
        cases hv : o.tradableQuantity with
        | missing => simp [floatOf, qtyVal, hv]
        | num q => simp [floatOf, qtyVal, hv]
        | bad => exact absurd hv ho
      show Except.bind (floatOf o.tradableQuantity) _ = _
      rw [hq]
      show Except.bind (filter_offers rest) _ = _
      rw [hrest]
      show (if isMerchant o ∨ qtyVal o > 1000 then _ else _) = _
      rw [List.filter_cons]
      by_cases he : isMerchant o ∨ qtyVal o > 1000
      · rw [if_pos he, if_pos]
        simp only [eligible, Bool.or_eq_true, decide_eq_true_eq]
        simpa using he
      · rw [if_neg he, if_neg]
        simp only [eligible, Bool.or_eq_true, decide_eq_true_eq]
        simpa using he
    · rintro ⟨x, hx, hbad⟩
      rcases List.mem_cons.mp hx with rfl | hx'
      · show Except.bind (floatOf x.tradableQuantity) _ = _
        rw [hbad]
        rfl
      · have hrest : filter_offers rest = .error () := ih.2 ⟨x, hx', hbad⟩
        show Except.bind (floatOf o.tradableQuantity) _ = _
        cases hq : floatOf o.tradableQuantity with
        | error e => rfl
        | ok q =>
          show Except.bind (filter_offers rest) _ = _
          rw [hrest]
          rfl

/-- Witness for the amended C2: the spec's two sample offers pass the
parseability hypothesis and are filtered by the eligibility predicate; a
list containing an unparseable quantity satisfies the failure hypothesis
and makes the filter fail. -/
theorem C2_filter_eligibility_witness :
    filter_offers [ofr600, ofr610] = .ok ([ofr600, ofr610].filter eligible) ∧
    filter_offers [badQtyPlain] = .error () :=
  ⟨(C2_filter_eligibility [ofr600, ofr610]).1 (by decide),
   (C2_filter_eligibility [badQtyPlain]).2 ⟨badQtyPlain, by simp, rfl⟩⟩

/-- Claim C3 counterexample: with `[hp0]` persisted, a fault during the
in-place write (`open(..., 'w')` truncates, then `json.dump` raises) makes
`save_price_data` return `False` but leaves the file partial, so the
previously persisted sequence is no longer readable — it is *not* left
unchanged as the claim states. -/
theorem C3_counterexample :
    (save_price_data (.stored [hp0]) snapNoon .failDuringWrite).1 = false ∧
    get_price_history
        (save_price_data (.stored [hp0]) snapNoon .failDuringWrite).2 = [] ∧
    get_price_history (.stored [hp0]) = [hp0] ∧
    ([hp0] : List HistoryPoint) ≠ [] :=
  ⟨rfl, rfl, rfl, by simp⟩

/-- Claim C3 (amended): `save_price_data` reports every failure as a `False`
return value and never raises — the result is `True` exactly on success;
a fault before the file is opened leaves the persisted state unchanged
(the in-progress point is dropped); but the write is in place rather than
write-then-replace, so a serialization or storage fault *during* the write
leaves the file partial and subsequent reads degrade to the empty
history. -/
theorem C3_failure_reporting (st : FileState) (d : AssetSnapshot) :
    (∀ w, (save_price_data st d w).1 = true ↔ w = .ok) ∧
    save_price_data st d .failBeforeWrite = (false, st) ∧
    (save_price_data st d .failDuringWrite).2 = .corrupt ∧
    get_price_history (save_price_data st d .failDuringWrite).2 = [] := by
  refine ⟨fun w => ?_, rfl, rfl, rfl⟩
  cases w <;> simp [save_price_data]

/-- Claim C4 counterexample: a 2xx response without the `"data"` field
makes `fetch_binance_p2p_data` log and return an empty list — an empty
result, not the failure the claim requires. -/
theorem C4_counterexample :
    fetch_binance_p2p_data (.httpResponse 200 none) = .returned [] ∧
    fetch_binance_p2p_data (.httpResponse 200 none) ≠ .raised := by
  refine ⟨rfl, fun h => ?_⟩
  rw [show fetch_binance_p2p_data (.httpResponse 200 none)
        = .returned [] from rfl] at h
  exact FetchResult.noConfusion h

/-- Claim C4 (amended): `fetch_binance_p2p_data` fails (re-raises) exactly
on network failure or a 4xx/5xx status; when the response lacks the
expected `"data"` field it logs the unexpected format and returns an empty
list — the absence of the array is treated as an empty result, not as a
failure. -/
theorem C4_transport_and_format (status : Nat) (offers : List Offer) :
    fetch_binance_p2p_data .networkFailure = .raised ∧
    (400 ≤ status →
      ∀ data, fetch_binance_p2p_data (.httpResponse status data) = .raised) ∧
    (status < 400 →
      fetch_binance_p2p_data (.httpResponse status (some offers))
        = .returned offers) ∧
    (status < 400 →
      fetch_binance_p2p_data (.httpResponse status none) = .returned []) := by
  refine ⟨rfl, fun h data => ?_, fun h => ?_, fun h => ?_⟩
  · show (if 400 ≤ status then FetchResult.raised else _) = _
    rw [if_pos h]
  · show (if 400 ≤ status then FetchResult.raised else _) = _
    rw [if_neg (by omega)]
  · show (if 400 ≤ status then FetchResult.raised else _) = _
    rw [if_neg (by omega)]

/-- Witness for the amended C4 at a 404 and a 200 response. -/
theorem C4_transport_and_format_witness :
    fetch_binance_p2p_data (.httpResponse 404 (some [])) = .raised ∧
    fetch_binance_p2p_data (.httpResponse 200 (some [ofr600]))
      = .returned [ofr600] :=
  ⟨(C4_transport_and_format 404 []).2.1 (by decide) _,
   (C4_transport_and_format 200 [ofr600]).2.2.1 (by decide)⟩

/-- Claim C5: `fetch_multi_asset_data` never fails as a whole — it yields
one entry per asset in order; an asset whose composition succeeds keeps its
snapshot, and an asset whose composition fails gets the zero-valued
placeholder (timestamp set, prices, spread and counts zero, empty offer
lists). -/
theorem C5_per_asset_isolation (assets : List String) (fiat ts : String)
    (fetchLatest : String → Except Unit AssetSnapshot) :
    (fetch_multi_asset_data assets fiat ts fetchLatest).map Prod.fst = assets ∧
    (∀ a ∈ assets, ∀ d, fetchLatest a = .ok d →
      (a, d) ∈ fetch_multi_asset_data assets fiat ts fetchLatest) ∧
    (∀ a ∈ assets, fetchLatest a = .error () →
      (a, zeroSnapshot ts a fiat)
        ∈ fetch_multi_asset_data assets fiat ts fetchLatest) := by
  refine ⟨?_, fun a ha d hd => ?_, fun a ha hf => ?_⟩
  · unfold fetch_multi_asset_data
    rw [List.map_map]
    have hcomp : (Prod.fst ∘ fun a =>
        match fetchLatest a with
        | .ok d => (a, d)
        | .error _ => (a, zeroSnapshot ts a fiat)) = id := by
      funext a
      show Prod.fst (match fetchLatest a with
        | .ok d => (a, d)
        | .error _ => (a, zeroSnapshot ts a fiat)) = a
      cases fetchLatest a <;> rfl
    rw [hcomp, List.map_id]
  · unfold fetch_multi_asset_data
    refine List.mem_map.mpr ⟨a, ha, ?_⟩
    rw [hd]
  · unfold fetch_multi_asset_data
    refine List.mem_map.mpr ⟨a, ha, ?_⟩
    rw [hf]

/-- Witness for C5: over `["USDT", "BTC"]` with BTC's fetch failing, the
result holds USDT's real snapshot and BTC's zero placeholder. -/
theorem C5_per_asset_isolation_witness :
    ("USDT", snapNoon)
      ∈ fetch_multi_asset_data ["USDT", "BTC"] "SDG" "2024-06-15 12:00:00"
          fetchSample ∧
    ("BTC", zeroSnapshot "2024-06-15 12:00:00" "BTC" "SDG")
      ∈ fetch_multi_asset_data ["USDT", "BTC"] "SDG" "2024-06-15 12:00:00"
          fetchSample :=
  ⟨(C5_per_asset_isolation ["USDT", "BTC"] "SDG" "2024-06-15 12:00:00"
      fetchSample).2.1 "USDT" (by simp) snapNoon rfl,
   (C5_per_asset_isolation ["USDT", "BTC"] "SDG" "2024-06-15 12:00:00"
      fetchSample).2.2 "BTC" (by simp) rfl⟩

/-- For the recognized period `'hour'`, the loop body keeps exactly the rows
within the last hour plus the rows whose timestamp fails to parse. -/
theorem keepRow_hour (now : Int) : keepRow "hour" now = lastHourPred now := by
  funext r
  unfold keepRow lastHourPred
  cases strptime r.Timestamp with
  | none => rfl
  | some t =>
    rw [show (("hour" : String) == "hour") = true by decide,
      show (("hour" : String) == "day") = false by decide,
      show (("hour" : String) == "month") = false by decide]
    simp

set_option maxRecDepth 100000 in
/-- Claim C6: the lastHour export window retains exactly the rows whose
timestamp parses to a time ≥ now − 1 hour plus every row whose timestamp
fails to parse (fail-open); concretely, with "now" at noon, the point from
10:00 (2 hours past) is excluded and the one from 11:30 (30 minutes past)
is included. -/
theorem C6_last_hour_window :
    (∀ (now : Int) (rows : List SummaryRow),
      filterByPeriod (some "hour") now rows = rows.filter (lastHourPred now)) ∧
    (∀ (history : List HistoryPoint) (d : AssetSnapshot) (now : Int),
      build_summary history d (some "hour") now
        = (sortRows (appendCurrentIfNew (history.map rowOfPoint) d)).filter
            (lastHourPred now)) ∧
    (build_summary [hp1000, hp1130] snapNoon (some "hour") nowNoon).map
        SummaryRow.Timestamp
      = ["2024-06-15 11:30:00", "2024-06-15 12:00:00"] := by
  have hf : ∀ (now : Int) (rows : List SummaryRow),
      filterByPeriod (some "hour") now rows = rows.filter (lastHourPred now) := by
    intro now rows
    show (if ("hour" : String) = "" then rows
        else rows.filter (keepRow "hour" now)) = _
    rw [if_neg (by decide), keepRow_hour]
  refine ⟨hf, fun history d now => ?_, by decide⟩
  unfold build_summary
  rw [hf]

/-- Claim C7: building the export appends the current snapshot's row to the
historical sheet iff no history row carries a string-equal timestamp; when
an identical timestamp is already present nothing is appended, and the
final sheet holds no more rows with that timestamp than the history already
had. -/
theorem C7_duplicate_suppression (history : List HistoryPoint)
    (d : AssetSnapshot) (tp : Option String) (now : Int) :
    (((history.map rowOfPoint).any fun r => r.Timestamp = d.timestamp) = false →
      appendCurrentIfNew (history.map rowOfPoint) d
        = history.map rowOfPoint ++ [rowOfCurrent d]) ∧
    (((history.map rowOfPoint).any fun r => r.Timestamp = d.timestamp) = true →
      appendCurrentIfNew (history.map rowOfPoint) d = history.map rowOfPoint ∧
      countTs (build_summary history d tp now) d.timestamp
        ≤ countTs (history.map rowOfPoint) d.timestamp) := by
  constructor
  · intro h
    unfold appendCurrentIfNew
    rw [if_neg (by simp [h])]
  · intro h
    have happ : appendCurrentIfNew (history.map rowOfPoint) d
        = history.map rowOfPoint := by
      unfold appendCurrentIfNew
      rw [if_pos h]
    refine ⟨happ, ?_⟩
    unfold build_summary
    rw [happ]
    have hsub : countTs
        (filterByPeriod tp now (sortRows (history.map rowOfPoint))) d.timestamp
          ≤ countTs (sortRows (history.map rowOfPoint)) d.timestamp := by
      have hsl : (filterByPeriod tp now
          (sortRows (history.map rowOfPoint))).Sublist
            (sortRows (history.map rowOfPoint)) := by
        cases tp with
        | none => exact List.Sublist.refl _
        | some s =>
          by_cases hs : s = ""
          · subst hs
            exact List.Sublist.refl _
          · show (if s = "" then sortRows (history.map rowOfPoint)
                else (sortRows (history.map rowOfPoint)).filter
                  (keepRow s now)).Sublist (sortRows (history.map rowOfPoint))
            rw [if_neg hs]
            exact List.filter_sublist _
      exact hsl.countP_le _
    have hperm : countTs (sortRows (history.map rowOfPoint)) d.timestamp
        = countTs (history.map rowOfPoint) d.timestamp := by
      unfold countTs
      exact (List.perm_insertionSort _ _).countP_eq _
    exact le_trans hsub (le_of_eq hperm)

/-- Witness for C7: with a noon point already in history, the noon snapshot
is not appended and the sheet's noon-row count does not grow; with only the
11:30 point in history, the noon snapshot is appended. -/
theorem C7_duplicate_suppression_witness :
    appendCurrentIfNew ([hpNoon].map rowOfPoint) snapNoon
      = [hpNoon].map rowOfPoint ∧
    countTs (build_summary [hpNoon] snapNoon none 0) snapNoon.timestamp
      ≤ countTs ([hpNoon].map rowOfPoint) snapNoon.timestamp ∧
    appendCurrentIfNew ([hp1130].map rowOfPoint) snapNoon
      = [hp1130].map rowOfPoint ++ [rowOfCurrent snapNoon] :=
  ⟨((C7_duplicate_suppression [hpNoon] snapNoon none 0).2 (by decide)).1,
   ((C7_duplicate_suppression [hpNoon] snapNoon none 0).2 (by decide)).2,
   (C7_duplicate_suppression [hp1130] snapNoon none 0).1 (by decide)⟩

/-- On a list whose price fields never make `float` raise, the running
total is the sum of the per-offer prices. -/
theorem sumPrices_ok (offers : List Offer)
    (h : ∀ o ∈ offers, o.price ≠ .bad) :
    sumPrices offers = .ok ((offers.map priceVal).sum) := by
  induction offers with
  | nil => rfl
  | cons o rest ih =>
    have ho := h o (List.mem_cons_self o rest)
    have hrest := ih fun x hx => h x (List.mem_cons_of_mem _ hx)
    have hp : floatOf o.price = .ok (priceVal o) := by
      cases hv : o.price with
      | missing => simp [floatOf, priceVal, hv]
      | num q => simp [floatOf, priceVal, hv]
      | bad => exact absurd hv ho
    show Except.bind (floatOf o.price) _ = _
    rw [hp]
    show Except.bind (sumPrices rest) _ = _
    rw [hrest]
    show Except.ok (priceVal o + (rest.map priceVal).sum) = _
    rw [List.map_cons, List.sum_cons]

/-- Claim C8: `calculate_average_price` returns 0 (not an error) on an
empty offer list and the unweighted arithmetic mean otherwise; on the
spec's scenario `[{price:600, qty:2000, merchant:false},
{price:610, qty:50, merchant:true}]` both offers pass the filter (one by
quantity, one by merchant flag) and the average price is 605. -/
theorem C8_average_price :
    calculate_average_price [] = .ok 0 ∧
    (∀ offers : List Offer, offers ≠ [] → (∀ o ∈ offers, o.price ≠ .bad) →
      calculate_average_price offers
        = .ok ((offers.map priceVal).sum / (offers.length : ℚ))) ∧
    filter_offers [ofr600, ofr610] = .ok [ofr600, ofr610] ∧
    calculate_average_price [ofr600, ofr610] = .ok 605 := by
  refine ⟨rfl, fun offers hne hok => ?_, ?_, ?_⟩
  · unfold calculate_average_price
    rw [if_neg (by simpa using hne), sumPrices_ok offers hok]
    rfl
  · rfl
  · have hsum : sumPrices [ofr600, ofr610] = .ok (600 + (610 + 0)) := rfl
    unfold calculate_average_price
    rw [if_neg (by simp), hsum]
    show Except.ok (((600 : ℚ) + (610 + 0)) / ((2 : ℕ) : ℚ)) = Except.ok 605
    simp only [Except.ok.injEq]
    norm_num

/-- Witness for C8's mean clause at the spec's two-offer scenario. -/
theorem C8_average_price_witness :
    calculate_average_price [ofr600, ofr610]
      = .ok (([ofr600, ofr610].map priceVal).sum
          / (([ofr600, ofr610].length : ℕ) : ℚ)) :=
  C8_average_price.2.1 [ofr600, ofr610] (by simp) (by decide)

/-- For a truthy period other than the three recognized ones, the loop body
keeps exactly the rows whose timestamp fails to parse. -/
theorem keepRow_unrecognized (tp : String) (now : Int)
    (h1 : tp ≠ "hour") (h2 : tp ≠ "day") (h3 : tp ≠ "month") :
    keepRow tp now = unparseablePred := by
  funext r
  unfold keepRow unparseablePred
  cases strptime r.Timestamp with
  | none => rfl
  | some t =>
    rw [show (tp == "hour") = false by simpa using h1,
      show (tp == "day") = false by simpa using h2,
      show (tp == "month") = false by simpa using h3]
    simp

/-- Claim C10: for every truthy `time_period` other than `'hour'`, `'day'`
and `'month'` (e.g. an arbitrary string passed through the export route's
`period` parameter), the historical sheet drops every row whose timestamp
parses and retains only the rows with unparseable timestamps. -/
theorem C10_unrecognized_period (tp : String)
    (h1 : tp ≠ "hour") (h2 : tp ≠ "day") (h3 : tp ≠ "month") (h4 : tp ≠ "") :
    (∀ (now : Int) (rows : List SummaryRow),
      filterByPeriod (some tp) now rows = rows.filter unparseablePred) ∧
    (∀ (history : List HistoryPoint) (d : AssetSnapshot) (now : Int),
      build_summary history d (some tp) now
        = (sortRows (appendCurrentIfNew (history.map rowOfPoint) d)).filter
            unparseablePred) := by
  have hf : ∀ (now : Int) (rows : List SummaryRow),
      filterByPeriod (some tp) now rows = rows.filter unparseablePred := by
    intro now rows
    show (if tp = "" then rows else rows.filter (keepRow tp now)) = _
    rw [if_neg h4, keepRow_unrecognized tp now h1 h2 h3]
  exact ⟨hf, fun history d now => by unfold build_summary; rw [hf]⟩

set_option maxRecDepth 100000 in
/-- Witness for C10 at period `"week"`: the sheet loses the well-formed
11:30 row and keeps only the row with the unparseable timestamp. -/
theorem C10_unrecognized_period_witness :
    filterByPeriod (some "week") 0 [rowOfPoint hp1130, rowBadTs]
      = [rowBadTs] := by
  rw [(C10_unrecognized_period "week" (by decide) (by decide) (by decide)
      (by decide)).1 0 [rowOfPoint hp1130, rowBadTs]]
  decide
